import Mathlib

/-!
# Verification of the terminal-tamagotchi pet simulation engine

Shallow embedding of `src/tamagotchi.py` (the `GameData` persistence class
and the simulation methods of `TamagotchiApp` / its widgets).  The live
simulation state is spread in the Python source over the reactive fields of
`BottomBar` (hunger, health, age, weight, lifetime_hours), `Character`
(poops, emotion) and the `self.state` dict (milestones, name); the code
keeps those in sync, so they are modelled here as a single `PetState`
record.  Randomness (`random.random() < p`) is modelled by explicit Bool
parameters (one per draw), and the wall clock by explicit parameters:
`calculate_decay` receives the elapsed seconds `now - last_save` as an
`Option ℤ` (`none` = `datetime.fromisoformat` raised, the `except` path),
and `save` receives the current timestamp string.
-/

/-- The persisted/live pet state (fields of the save record plus the derived
emotion string held by `Character.emotion`). -/
structure PetState where
  name : String
  hunger : ℤ
  health : ℤ
  age_hours : ℤ
  weight : ℤ
  lifetime_hours : ℤ
  poops : ℤ
  milestones : List String
  emotion : String
deriving DecidableEq, Repr

/-- Python's `int(s / d)` for an elapsed amount of `s` seconds and a divisor
`d`: float division truncated toward zero.  Used by `calculate_decay`, which
computes `int(minutes_passed / 5)` with `minutes_passed = seconds / 60`,
i.e. the truncation toward zero of `s / 300`. -/
def pyTrunc (s : ℤ) (d : ℕ) : ℤ :=
  if 0 ≤ s then ((s.toNat / d : ℕ) : ℤ) else -(((-s).toNat / d : ℕ) : ℤ)

/-- `TamagotchiApp.update_emotion` (src/tamagotchi.py lines 672-683) as the
pure function of the two meters it reads. -/
def update_emotion (hunger health : ℤ) : String :=
  if health ≤ 1 then "sick"
  else if hunger = 0 then "hungry"
  else if 3 ≤ hunger ∧ 3 ≤ health then "happy"
  else "normal"

/-- `TamagotchiApp.calculate_decay` (lines 606-614): parse `last_save`,
subtract one hunger point per 5 elapsed minutes (truncated), clamp below at
0.  A parse failure (`none`) is swallowed by the `except` and changes
nothing.  `elapsedSeconds` is `now - last_save` in seconds and is negative
when the stored timestamp is in the future. -/
def calculate_decay (elapsedSeconds : Option ℤ) (st : PetState) : PetState :=
  match elapsedSeconds with
  | none => st
  | some s => { st with hunger := max 0 (st.hunger - pyTrunc s 300) }

/-- `TamagotchiApp.hunger_tick` (lines 641-646): every 300 s, decrement
hunger if positive, then recompute the emotion. -/
def hunger_tick (st : PetState) : PetState :=
  if 0 < st.hunger then
    { st with hunger := st.hunger - 1,
              emotion := update_emotion (st.hunger - 1) st.health }
  else st

/-- `TamagotchiApp.poop_check` (lines 648-653): with hunger ≥ 3, fewer than
3 poops and a successful 0.6 draw (`r`), add a poop. -/
def poop_check (r : Bool) (st : PetState) : PetState :=
  if 3 ≤ st.hunger ∧ st.poops < 3 ∧ r = true then
    { st with poops := st.poops + 1 }
  else st

/-- `TamagotchiApp.check_health` (lines 655-670): starving or poop buildup
probabilistically lowers health (clamped at 0), a well-fed clean pet
probabilistically regains health (clamped at 4); each branch recomputes the
emotion.  `r1`, `r2`, `r3` are the three possible random draws. -/
def check_health (r1 r2 r3 : Bool) (st : PetState) : PetState :=
  if st.hunger = 0 ∧ r1 = true then
    { st with health := max 0 (st.health - 1),
              emotion := update_emotion st.hunger (max 0 (st.health - 1)) }
  else if 2 ≤ st.poops ∧ r2 = true then
    { st with health := max 0 (st.health - 1),
              emotion := update_emotion st.hunger (max 0 (st.health - 1)) }
  else if 3 ≤ st.hunger ∧ st.poops = 0 ∧ st.health < 4 ∧ r3 = true then
    { st with health := min 4 (st.health + 1),
              emotion := update_emotion st.hunger (min 4 (st.health + 1)) }
  else st

/-- `TamagotchiApp.age_tick` (lines 616-639): advance both age counters,
then append at most one milestone identifier, each guarded by a
`not in self.state["milestones"]` check. -/
def age_tick (st : PetState) : PetState :=
  let st1 := { st with age_hours := st.age_hours + 1,
                       lifetime_hours := st.lifetime_hours + 1 }
  if st1.lifetime_hours = 24 ∧ "day1" ∉ st1.milestones then
    { st1 with milestones := st1.milestones ++ ["day1"] }
  else if st1.lifetime_hours = 72 ∧ "day3" ∉ st1.milestones then
    { st1 with milestones := st1.milestones ++ ["day3"] }
  else if st1.lifetime_hours = 168 ∧ "week1" ∉ st1.milestones then
    { st1 with milestones := st1.milestones ++ ["week1"] }
  else st1

/-- `TamagotchiApp.action_feed` (lines 696-709): at hunger ≥ 4 only the
acknowledgement (emotion set to "happy", reset later by a timer) happens;
otherwise hunger is incremented clamped at 4 and weight grows by 1. -/
def action_feed (st : PetState) : PetState :=
  if 4 ≤ st.hunger then { st with emotion := "happy" }
  else { st with hunger := min 4 (st.hunger + 1),
                 weight := st.weight + 1,
                 emotion := "happy" }

/-- `TamagotchiApp.action_clean` (lines 711-715): reset poops to 0 when any
are present, otherwise do nothing. -/
def action_clean (st : PetState) : PetState :=
  if 0 < st.poops then { st with poops := 0 } else st

/-- The mutating operations of one running session, with their random draws
and clock inputs made explicit. -/
inductive Op where
  | feed
  | clean
  | hungerTick
  | ageTick
  | poopCheck (r : Bool)
  | checkHealth (r1 r2 r3 : Bool)
  | decay (elapsedSeconds : Option ℤ)
deriving DecidableEq, Repr

/-- Dispatch one operation. -/
def applyOp : Op → PetState → PetState
  | .feed => action_feed
  | .clean => action_clean
  | .hungerTick => hunger_tick
  | .ageTick => age_tick
  | .poopCheck r => poop_check r
  | .checkHealth r1 r2 r3 => check_health r1 r2 r3
  | .decay e => calculate_decay e

/-- Run a sequence of operations. -/
def run (ops : List Op) (st : PetState) : PetState :=
  ops.foldl (fun s o => applyOp o s) st

/-- JSON values as they occur in the save record (the only arrays stored are
string arrays, so `jarr` carries a list of strings). -/
inductive JValue where
  | jnull
  | jbool (b : Bool)
  | jint (n : ℤ)
  | jstr (s : String)
  | jarr (elems : List String)
deriving DecidableEq, Repr

/-- A JSON object / Python dict, observed through key lookup. -/
def Record : Type := String → Option JValue

/-- The keys of the `defaults` dict in `GameData.load` (lines 25-35). -/
def defaultKeys : List String :=
  ["name", "age_hours", "hunger", "health", "weight", "poops",
   "lifetime_hours", "milestones", "last_save"]

/-- The `defaults` dict of `GameData.load`; `now` is
`datetime.now().isoformat()`. -/
def defaults (now : String) : Record := fun k =>
  if k = "name" then some (.jstr "Mochi")
  else if k = "age_hours" then some (.jint 0)
  else if k = "hunger" then some (.jint 4)
  else if k = "health" then some (.jint 4)
  else if k = "weight" then some (.jint 5)
  else if k = "poops" then some (.jint 0)
  else if k = "lifetime_hours" then some (.jint 0)
  else if k = "milestones" then some (.jarr [])
  else if k = "last_save" then some (.jstr now)
  else none

/-- Python dict assignment `r[k] = v`. -/
def dset (r : Record) (k : String) (v : JValue) : Record :=
  fun j => if j = k then some v else r j

/-- `GameData.load` (lines 24-47).  `parsed = none` is the missing-file /
parse-failure / schema-mismatch path (any exception is swallowed and the
defaults returned).  On a successfully parsed dict the code keeps only the
keys that occur in `defaults` (`{k: v for k, v in loaded.items() if k in
defaults}`), merges them over the defaults, and then forces
`result["age_hours"] = 0`. -/
def GameData.load (parsed : Option Record) (now : String) : Record :=
  match parsed with
  | none => defaults now
  | some loaded =>
    let merged : Record := fun k =>
      if k ∈ defaultKeys then
        match loaded k with
        | some v => some v
        | none => defaults now k
      else none
    dset merged "age_hours" (.jint 0)

/-- `GameData.save` (lines 49-52): stamp `last_save` with the current clock,
then write.  The file write can raise; nothing in `save` catches it, so a
failed write surfaces as the error value. -/
def GameData.save (data : Record) (now : String) (writeOk : Bool) :
    Except String Record :=
  let stamped := dset data "last_save" (.jstr now)
  if writeOk then Except.ok stamped else Except.error "write failed"

/-- The record `TamagotchiApp.save_game` (lines 685-694) passes to
`GameData.save`: the session record `rec` (which already carries `name` and
`milestones`) updated with the current widget stats. -/
def save_game_record (st : PetState) (rec : Record) : Record :=
  dset (dset (dset (dset (dset (dset rec
    "hunger" (.jint st.hunger))
    "health" (.jint st.health))
    "age_hours" (.jint st.age_hours))
    "weight" (.jint st.weight))
    "lifetime_hours" (.jint st.lifetime_hours))
    "poops" (.jint st.poops)

/-- `TamagotchiApp.save_game` (lines 685-694): copy the widget stats into
`self.state` and call `GameData.save`.  No exception handler surrounds the
call. -/
def save_game (st : PetState) (rec : Record) (now : String) (writeOk : Bool) :
    Except String Record :=
  GameData.save (save_game_record st rec) now writeOk

/-- The JSON encoding of the milestones list. -/
def encodeMilestones (ms : List String) : JValue := .jarr ms

/-- Both bounded meters are inside the heart scale [0, 4]. -/
def inBounds (st : PetState) : Prop :=
  0 ≤ st.hunger ∧ st.hunger ≤ 4 ∧ 0 ≤ st.health ∧ st.health ≤ 4

instance (st : PetState) : Decidable (inBounds st) := by
  unfold inBounds; infer_instance

/-- The spec's low-health threshold on the heart scale ("Sick: health
at/below low threshold"). -/
def specLowHealth : ℤ := 1

/-- The spec's minimum-hunger value ("Hungry: hunger at minimum"). -/
def specMinHunger : ℤ := 0

/-- The spec's high threshold on the heart scale ("Happy: meters all
at/above high threshold"). -/
def specHighThreshold : ℤ := 3

/-- EmotionResolver written from the spec's severity-first priority list
(Dead > Sick > Hungry > Sleeping > Happy > Sad > Normal, first match wins),
specialised to this variant: there is no alive flag, so Dead never fires;
sleeping is wall-clock presentation, not a function of the meters; there is
no happiness meter, so Sad never fires. -/
def specEmotion (hunger health : ℤ) : String :=
  if health ≤ specLowHealth then "sick"
  else if hunger = specMinHunger then "hungry"
  else if specHighThreshold ≤ hunger ∧ specHighThreshold ≤ health then "happy"
  else "normal"

/-- The default pet: the `defaults` dict of `GameData.load` viewed as a
`PetState` (with the emotion the startup `update_emotion` derives). -/
def initialState : PetState :=
  { name := "Mochi", hunger := 4, health := 4, age_hours := 0, weight := 5,
    lifetime_hours := 0, poops := 0, milestones := [], emotion := "happy" }

/-- A pet two feeds away from full, for concrete checks. -/
def hungryState : PetState :=
  { initialState with hunger := 2, emotion := "normal" }

/-- A stored record carrying nonzero age counters, for concrete checks. -/
def staleRecord : Record := fun k =>
  if k = "age_hours" then some (.jint 10)
  else if k = "lifetime_hours" then some (.jint 7)
  else none

/-- A stored record with one known and one unknown key, for concrete
checks. -/
def partialRecord : Record := fun k =>
  if k = "hunger" then some (.jint 2)
  else if k = "favourite_food" then some (.jstr "rice")
  else none

/-- The record written by a successful `save_game` from the default state
over the default session record. -/
def savedRecordW : Record :=
  dset (save_game_record initialState (defaults "t0")) "last_save" (.jstr "t1")

/-! ## Helper lemmas -/

theorem pyTrunc_nonneg (s : ℤ) (d : ℕ) (hs : 0 ≤ s) : 0 ≤ pyTrunc s d := by
  unfold pyTrunc
  rw [if_pos hs]
  exact Int.natCast_nonneg _

theorem hunger_tick_hunger (st : PetState) :
    (hunger_tick st).hunger =
      if 0 < st.hunger then st.hunger - 1 else st.hunger := by
  unfold hunger_tick
  split_ifs <;> rfl

theorem pyTrunc_of_nonneg (s : ℤ) (d : ℕ) (hs : 0 ≤ s) :
    pyTrunc s d = ((s.toNat / d : ℕ) : ℤ) := by
  simp [pyTrunc, hs]

theorem pyTrunc_of_neg (s : ℤ) (d : ℕ) (hs : s < 0) :
    pyTrunc s d = -(((-s).toNat / d : ℕ) : ℤ) := by
  simp [pyTrunc, not_le.mpr hs]

theorem hunger_tick_iterate (n : ℕ) :
    ∀ st : PetState, 0 ≤ st.hunger →
      (hunger_tick^[n] st).hunger = max 0 (st.hunger - n) := by
  induction n with
  | zero => intro st h; simpa using by omega
  | succ n ih =>
    intro st h
    rw [Function.iterate_succ_apply', hunger_tick_hunger]
    have hn := ih st h
    split_ifs with hpos <;> omega

/-! ## Claims -/

/-- C1 (counterexample): from the default state (all meters in [0, 4]),
`calculate_decay` with a stored `last_save` 50 minutes in the future
(elapsed seconds = -3000) drives hunger to 14, above the heart-scale
maximum of 4. -/
theorem decay_future_breaks_upper_bound :
    inBounds initialState ∧
    (calculate_decay (some (-3000)) initialState).hunger = 14 ∧
    ¬ (calculate_decay (some (-3000)) initialState).hunger ≤ 4 := by
  decide

/-- C1 (amended): feed, clean, hunger tick and health check keep both
bounded meters in [0, 4]; offline catch-up keeps them in [0, 4] whenever
the elapsed time is nonnegative, never drops hunger below 0 and never
touches health — but with a stored `last_save` in the future (negative
elapsed time) it can push hunger above the maximum. -/
theorem meters_stay_in_bounds :
    ∀ (st : PetState) (r1 r2 r3 : Bool) (s : ℤ),
      inBounds st →
      inBounds (action_feed st) ∧
      inBounds (action_clean st) ∧
      inBounds (hunger_tick st) ∧
      inBounds (check_health r1 r2 r3 st) ∧
      (0 ≤ s → inBounds (calculate_decay (some s) st)) ∧
      inBounds (calculate_decay none st) ∧
      0 ≤ (calculate_decay (some s) st).hunger ∧
      (calculate_decay (some s) st).health = st.health := by
  intro st r1 r2 r3 s h
  obtain ⟨h1, h2, h3, h4⟩ := h
  refine ⟨?_, ?_, ?_, ?_, ?_, ?_, ?_, ?_⟩
  · unfold action_feed inBounds
    split_ifs <;> (try simp) <;> omega
  · unfold action_clean inBounds
    split_ifs <;> (try simp) <;> omega
  · unfold hunger_tick inBounds
    split_ifs <;> (try simp) <;> omega
  · unfold check_health inBounds
    split_ifs <;> (try simp) <;> omega
  · intro hs
    have hnn := pyTrunc_nonneg s 300 hs
    unfold calculate_decay inBounds
    simp only []
    refine ⟨le_max_left 0 _, ?_, h3, h4⟩
    omega
  · exact ⟨h1, h2, h3, h4⟩
  · exact le_max_left 0 _
  · rfl

/-- C1 witness. -/
theorem meters_stay_in_bounds_witness :
    inBounds initialState ∧
    (inBounds (action_feed initialState) ∧
      inBounds (calculate_decay (some 600) initialState)) :=
  ⟨by decide,
   (meters_stay_in_bounds initialState true true true 600 (by decide)).1,
   (meters_stay_in_bounds initialState true true true 600
      (by decide)).2.2.2.2.1 (by decide)⟩

/-- C2: for a nonnegative elapsed duration of `s` seconds and a starting
hunger ≥ 0, the one-shot offline catch-up (`calculate_decay`) gives the
same hunger as running the live `hunger_tick` once per elapsed 300-second
interval, and both equal `max 0 (hunger - (s / 300))`, i.e.
`max 0 (hunger - floor(minutes / 5))`. -/
theorem decay_agrees_with_hunger_ticks :
    ∀ (st : PetState) (s : ℤ), 0 ≤ s → 0 ≤ st.hunger →
      (calculate_decay (some s) st).hunger =
        (hunger_tick^[s.toNat / 300] st).hunger ∧
      (calculate_decay (some s) st).hunger =
        max 0 (st.hunger - ((s.toNat / 300 : ℕ) : ℤ)) := by
  intro st s hs hh
  have ht := pyTrunc_of_nonneg s 300 hs
  have hit := hunger_tick_iterate (s.toNat / 300) st hh
  constructor
  · simp [calculate_decay, ht, hit]
  · simp [calculate_decay, ht]

/-- C2 witness. -/
theorem decay_agrees_with_hunger_ticks_witness :
    (0 : ℤ) ≤ 1800 ∧ 0 ≤ initialState.hunger ∧
    (calculate_decay (some 1800) initialState).hunger =
      (hunger_tick^[(1800 : ℤ).toNat / 300] initialState).hunger :=
  ⟨by decide, by decide,
   (decay_agrees_with_hunger_ticks initialState 1800 (by decide) (by decide)).1⟩

/-- C3 (counterexample): an unparsable `last_save` indeed changes nothing,
but a `last_save` 10 minutes in the future (elapsed seconds = -600) is not
treated as zero elapsed time: hunger rises from 4 to 6 (negative decay). -/
theorem decay_future_increases_hunger :
    calculate_decay none initialState = initialState ∧
    (calculate_decay (some (-600)) initialState).hunger = 6 ∧
    initialState.hunger < (calculate_decay (some (-600)) initialState).hunger := by
  decide

/-- C3 (amended): an unparsable `last_save` is swallowed by the `except`
and leaves the whole state unchanged, and `calculate_decay` never touches
health; but a `last_save` in the future (negative elapsed seconds `s`)
produces negative decay, increasing hunger by exactly
`(-s).toNat / 300` (one point per full 5 future minutes) instead of
treating the anomaly as zero elapsed time. -/
theorem decay_anomaly_behaviour :
    ∀ (st : PetState) (s : ℤ),
      calculate_decay none st = st ∧
      (calculate_decay (some s) st).health = st.health ∧
      (s < 0 → 0 ≤ st.hunger →
        (calculate_decay (some s) st).hunger =
          st.hunger + (((-s).toNat / 300 : ℕ) : ℤ)) := by
  intro st s
  refine ⟨rfl, by simp [calculate_decay], ?_⟩
  intro hs hh
  have ht := pyTrunc_of_neg s 300 hs
  simp [calculate_decay, ht]
  omega

/-- C3 witness. -/
theorem decay_anomaly_behaviour_witness :
    (-900 : ℤ) < 0 ∧ 0 ≤ hungryState.hunger ∧
    (calculate_decay (some (-900)) hungryState).hunger =
      hungryState.hunger + (((-(-900 : ℤ)).toNat / 300 : ℕ) : ℤ) :=
  ⟨by decide, by decide,
   (decay_anomaly_behaviour hungryState (-900)).2.2 (by decide) (by decide)⟩

theorem load_some_apply (loaded : Record) (now k : String) :
    GameData.load (some loaded) now k =
      if k = "age_hours" then some (.jint 0)
      else if k ∈ defaultKeys then
        match loaded k with
        | some v => some v
        | none => defaults now k
      else none := rfl

/-- C4: load is total: with no readable record (missing file, parse failure,
schema mismatch — the `except` path) it returns the complete defaults dict;
with a readable record, keys outside the defaults schema are dropped, keys
missing from the record are back-filled from the defaults, and known keys
present in the record are taken from it (except `age_hours`, which load
always resets to 0 — the claim does not speak about that reset). -/
theorem load_never_fails_and_merges :
    ∀ (now k : String) (loaded : Record) (v : JValue),
      GameData.load none now = defaults now ∧
      (k ∉ defaultKeys → GameData.load (some loaded) now k = none) ∧
      (k ∈ defaultKeys → loaded k = none →
        GameData.load (some loaded) now k = defaults now k) ∧
      (k ∈ defaultKeys → k ≠ "age_hours" → loaded k = some v →
        GameData.load (some loaded) now k = some v) ∧
      GameData.load (some loaded) now "age_hours" = some (.jint 0) := by
  intro now k loaded v
  refine ⟨rfl, ?_, ?_, ?_, ?_⟩
  · intro hk
    rw [load_some_apply]
    have hne : k ≠ "age_hours" := by
      intro he
      exact hk (he ▸ (by decide : ("age_hours" : String) ∈ defaultKeys))
    rw [if_neg hne, if_neg hk]
  · intro hk hl
    rw [load_some_apply]
    by_cases he : k = "age_hours"
    · subst he
      rw [if_pos rfl]
      rfl
    · rw [if_neg he, if_pos hk, hl]
  · intro hk hne hv
    rw [load_some_apply]
    rw [if_neg hne, if_pos hk, hv]
  · rw [load_some_apply]
    rw [if_pos rfl]

/-- C4 witness: a record holding a known key (`hunger`) and an unknown key
(`favourite_food`). -/
theorem load_never_fails_and_merges_witness :
    GameData.load none "t" = defaults "t" ∧
    GameData.load (some partialRecord) "t" "favourite_food" = none ∧
    GameData.load (some partialRecord) "t" "health" = defaults "t" "health" ∧
    GameData.load (some partialRecord) "t" "hunger" = some (.jint 2) :=
  ⟨(load_never_fails_and_merges "t" "x" partialRecord .jnull).1,
   (load_never_fails_and_merges "t" "favourite_food" partialRecord
      .jnull).2.1 (by decide),
   (load_never_fails_and_merges "t" "health" partialRecord
      .jnull).2.2.1 (by decide) rfl,
   (load_never_fails_and_merges "t" "hunger" partialRecord
      (.jint 2)).2.2.2.1 (by decide) (by decide) rfl⟩

/-- C5: the emotion resolver is a pure total function of the two meters it
reads (identical meters give identical emotion), it coincides with the
spec-side severity-first resolver, and the cases resolve in priority order
with the first match winning: sick whenever health ≤ 1 regardless of
hunger, then hungry whenever hunger = 0, then happy when both meters are
≥ 3, and normal otherwise.  (This variant has no alive flag, no sleep flag
in the meters and no happiness meter, so Dead, Sleeping and Sad never
fire.) -/
theorem emotion_pure_and_priority :
    ∀ (h hp : ℤ) (st1 st2 : PetState),
      update_emotion h hp = specEmotion h hp ∧
      (st1.hunger = st2.hunger → st1.health = st2.health →
        update_emotion st1.hunger st1.health =
          update_emotion st2.hunger st2.health) ∧
      (hp ≤ 1 → update_emotion h hp = "sick") ∧
      (1 < hp → h = 0 → update_emotion h hp = "hungry") ∧
      (1 < hp → h ≠ 0 → 3 ≤ h → 3 ≤ hp → update_emotion h hp = "happy") ∧
      (1 < hp → h ≠ 0 → ¬(3 ≤ h ∧ 3 ≤ hp) →
        update_emotion h hp = "normal") := by
  intro h hp st1 st2
  refine ⟨rfl, ?_, ?_, ?_, ?_, ?_⟩
  · intro e1 e2
    rw [e1, e2]
  · intro hle
    unfold update_emotion
    rw [if_pos hle]
  · intro hgt he
    unfold update_emotion
    rw [if_neg (by omega), if_pos he]
  · intro hgt hne h3 hp3
    unfold update_emotion
    rw [if_neg (by omega), if_neg hne, if_pos ⟨h3, hp3⟩]
  · intro hgt hne hnot
    unfold update_emotion
    rw [if_neg (by omega), if_neg hne, if_neg hnot]

/-- C5 witness. -/
theorem emotion_pure_and_priority_witness :
    update_emotion 0 0 = "sick" ∧ update_emotion 0 4 = "hungry" ∧
    update_emotion 4 4 = "happy" ∧ update_emotion 2 2 = "normal" :=
  ⟨(emotion_pure_and_priority 0 0 initialState initialState).2.2.1 (by decide),
   (emotion_pure_and_priority 0 4 initialState initialState).2.2.2.1
     (by decide) rfl,
   (emotion_pure_and_priority 4 4 initialState initialState).2.2.2.2.1
     (by decide) (by decide) (by decide) (by decide),
   (emotion_pure_and_priority 2 2 initialState initialState).2.2.2.2.2
     (by decide) (by decide) (by decide)⟩

/-- C6: feeding at maximum hunger changes nothing except the
acknowledgement (the emotion is set to "happy", not a refusal); feeding
below maximum raises hunger by 1 clamped at 4 (a strict increase),
increases weight by 1, leaves the other stats alone, and acknowledges. -/
theorem feed_ack_or_effect :
    ∀ st : PetState,
      (st.hunger = 4 → action_feed st = { st with emotion := "happy" }) ∧
      (st.hunger < 4 →
        (action_feed st).hunger = min 4 (st.hunger + 1) ∧
        st.hunger < (action_feed st).hunger ∧
        (action_feed st).weight = st.weight + 1 ∧
        st.weight < (action_feed st).weight ∧
        (action_feed st).health = st.health ∧
        (action_feed st).poops = st.poops ∧
        (action_feed st).milestones = st.milestones ∧
        (action_feed st).emotion = "happy") := by
  intro st
  constructor
  · intro h4
    unfold action_feed
    rw [if_pos (by omega)]
  · intro hlt
    unfold action_feed
    rw [if_neg (by omega)]
    exact ⟨rfl, by simp only []; omega, rfl, by simp only []; omega,
           rfl, rfl, rfl, rfl⟩

/-- C6 witness: at maximum hunger and two below maximum. -/
theorem feed_ack_or_effect_witness :
    action_feed initialState = { initialState with emotion := "happy" } ∧
    ((action_feed hungryState).hunger = min 4 (hungryState.hunger + 1) ∧
      hungryState.hunger < (action_feed hungryState).hunger ∧
      (action_feed hungryState).weight = hungryState.weight + 1 ∧
      hungryState.weight < (action_feed hungryState).weight ∧
      (action_feed hungryState).health = hungryState.health ∧
      (action_feed hungryState).poops = hungryState.poops ∧
      (action_feed hungryState).milestones = hungryState.milestones ∧
      (action_feed hungryState).emotion = "happy") :=
  ⟨(feed_ack_or_effect initialState).1 rfl,
   (feed_ack_or_effect hungryState).2 (by decide)⟩

/-- C7 (counterexample): a failing file write makes `save_game` surface the
I/O error: nothing in `GameData.save` or `TamagotchiApp.save_game` catches,
logs or reports it, so the exception propagates to the caller instead of
the session continuing with a logged warning. -/
theorem save_write_failure_uncaught :
    save_game initialState (defaults "t0") "t1" false =
      Except.error "write failed" := rfl

/-- C7 (amended): `save` always stamps `last_save` with the current clock
value as part of the write (every successful write carries it), but a
failed write is not handled: the error propagates uncaught out of
`save_game` rather than being logged with the session continuing. -/
theorem save_stamps_and_propagates :
    ∀ (st : PetState) (rec : Record) (now : String) (writeOk : Bool)
      (r2 : Record),
      save_game st rec now true =
        Except.ok (dset (save_game_record st rec) "last_save" (.jstr now)) ∧
      (save_game st rec now writeOk = Except.ok r2 →
        r2 "last_save" = some (.jstr now)) ∧
      save_game st rec now false = Except.error "write failed" := by
  intro st rec now writeOk r2
  refine ⟨rfl, ?_, rfl⟩
  intro hok
  cases writeOk with
  | false => exact absurd hok (by simp [save_game, GameData.save])
  | true =>
    have hr : dset (save_game_record st rec) "last_save" (.jstr now) = r2 := by
      simpa [save_game, GameData.save] using hok
    rw [← hr]
    unfold dset
    rw [if_pos rfl]

/-- C7 witness. -/
theorem save_stamps_and_propagates_witness :
    save_game initialState (defaults "t0") "t1" true =
      Except.ok savedRecordW ∧
    savedRecordW "last_save" = some (.jstr "t1") :=
  ⟨(save_stamps_and_propagates initialState (defaults "t0") "t1" true
      savedRecordW).1,
   (save_stamps_and_propagates initialState (defaults "t0") "t1" true
      savedRecordW).2.1 rfl⟩

theorem run_cons (o : Op) (ops : List Op) (st : PetState) :
    run (o :: ops) st = run ops (applyOp o st) := rfl

theorem age_tick_counters (st : PetState) :
    (age_tick st).age_hours = st.age_hours + 1 ∧
    (age_tick st).lifetime_hours = st.lifetime_hours + 1 ∧
    (age_tick st).hunger = st.hunger ∧
    (age_tick st).health = st.health ∧
    (age_tick st).poops = st.poops := by
  unfold age_tick
  dsimp only []
  split_ifs <;> exact ⟨rfl, rfl, rfl, rfl, rfl⟩

theorem age_tick_milestones_cases (st : PetState) :
    (age_tick st).milestones = st.milestones ∨
    ((age_tick st).milestones = st.milestones ++ ["day1"] ∧
      "day1" ∉ st.milestones) ∨
    ((age_tick st).milestones = st.milestones ++ ["day3"] ∧
      "day3" ∉ st.milestones) ∨
    ((age_tick st).milestones = st.milestones ++ ["week1"] ∧
      "week1" ∉ st.milestones) := by
  unfold age_tick
  dsimp only []
  split_ifs with h1 h2 h3
  · exact Or.inr (Or.inl ⟨rfl, h1.2⟩)
  · exact Or.inr (Or.inr (Or.inl ⟨rfl, h2.2⟩))
  · exact Or.inr (Or.inr (Or.inr ⟨rfl, h3.2⟩))
  · exact Or.inl rfl

theorem action_feed_frame (st : PetState) :
    (action_feed st).health = st.health ∧
    (action_feed st).age_hours = st.age_hours ∧
    (action_feed st).lifetime_hours = st.lifetime_hours ∧
    (action_feed st).poops = st.poops ∧
    (action_feed st).milestones = st.milestones := by
  unfold action_feed
  split_ifs <;> exact ⟨rfl, rfl, rfl, rfl, rfl⟩

theorem action_clean_frame (st : PetState) :
    (action_clean st).hunger = st.hunger ∧
    (action_clean st).health = st.health ∧
    (action_clean st).age_hours = st.age_hours ∧
    (action_clean st).lifetime_hours = st.lifetime_hours ∧
    (action_clean st).milestones = st.milestones := by
  unfold action_clean
  split_ifs <;> exact ⟨rfl, rfl, rfl, rfl, rfl⟩

theorem hunger_tick_frame (st : PetState) :
    (hunger_tick st).health = st.health ∧
    (hunger_tick st).age_hours = st.age_hours ∧
    (hunger_tick st).lifetime_hours = st.lifetime_hours ∧
    (hunger_tick st).poops = st.poops ∧
    (hunger_tick st).milestones = st.milestones := by
  unfold hunger_tick
  split_ifs <;> exact ⟨rfl, rfl, rfl, rfl, rfl⟩

theorem poop_check_frame (r : Bool) (st : PetState) :
    (poop_check r st).hunger = st.hunger ∧
    (poop_check r st).health = st.health ∧
    (poop_check r st).age_hours = st.age_hours ∧
    (poop_check r st).lifetime_hours = st.lifetime_hours ∧
    (poop_check r st).milestones = st.milestones := by
  unfold poop_check
  split_ifs <;> exact ⟨rfl, rfl, rfl, rfl, rfl⟩

theorem check_health_frame (r1 r2 r3 : Bool) (st : PetState) :
    (check_health r1 r2 r3 st).hunger = st.hunger ∧
    (check_health r1 r2 r3 st).age_hours = st.age_hours ∧
    (check_health r1 r2 r3 st).lifetime_hours = st.lifetime_hours ∧
    (check_health r1 r2 r3 st).poops = st.poops ∧
    (check_health r1 r2 r3 st).milestones = st.milestones := by
  unfold check_health
  split_ifs <;> exact ⟨rfl, rfl, rfl, rfl, rfl⟩

theorem calculate_decay_frame (e : Option ℤ) (st : PetState) :
    (calculate_decay e st).health = st.health ∧
    (calculate_decay e st).age_hours = st.age_hours ∧
    (calculate_decay e st).lifetime_hours = st.lifetime_hours ∧
    (calculate_decay e st).poops = st.poops ∧
    (calculate_decay e st).milestones = st.milestones := by
  cases e <;> exact ⟨rfl, rfl, rfl, rfl, rfl⟩

theorem applyOp_milestones_step (op : Op) (st : PetState) :
    ∃ t, (applyOp op st).milestones = st.milestones ++ t ∧
      (st.milestones.Nodup → (applyOp op st).milestones.Nodup) := by
  have single : ∀ (x : String), x ∉ st.milestones → st.milestones.Nodup →
      (st.milestones ++ [x]).Nodup := by
    intro x hx hd
    rw [List.nodup_append]
    refine ⟨hd, List.nodup_singleton x, fun a ha hb => ?_⟩
    rw [List.mem_singleton] at hb
    subst hb
    exact hx ha
  cases op with
  | ageTick =>
    rcases age_tick_milestones_cases st with h | ⟨h, hx⟩ | ⟨h, hx⟩ | ⟨h, hx⟩
    · exact ⟨[], by rw [List.append_nil]; exact h,
        fun hd => by show (age_tick st).milestones.Nodup; rw [h]; exact hd⟩
    · exact ⟨["day1"], h,
        fun hd => by show (age_tick st).milestones.Nodup; rw [h];
                     exact single _ hx hd⟩
    · exact ⟨["day3"], h,
        fun hd => by show (age_tick st).milestones.Nodup; rw [h];
                     exact single _ hx hd⟩
    · exact ⟨["week1"], h,
        fun hd => by show (age_tick st).milestones.Nodup; rw [h];
                     exact single _ hx hd⟩
  | feed =>
    exact ⟨[], by rw [List.append_nil]; exact (action_feed_frame st).2.2.2.2,
      fun hd => by show (action_feed st).milestones.Nodup;
                   rw [(action_feed_frame st).2.2.2.2]; exact hd⟩
  | clean =>
    exact ⟨[], by rw [List.append_nil]; exact (action_clean_frame st).2.2.2.2,
      fun hd => by show (action_clean st).milestones.Nodup;
                   rw [(action_clean_frame st).2.2.2.2]; exact hd⟩
  | hungerTick =>
    exact ⟨[], by rw [List.append_nil]; exact (hunger_tick_frame st).2.2.2.2,
      fun hd => by show (hunger_tick st).milestones.Nodup;
                   rw [(hunger_tick_frame st).2.2.2.2]; exact hd⟩
  | poopCheck r =>
    exact ⟨[], by rw [List.append_nil]; exact (poop_check_frame r st).2.2.2.2,
      fun hd => by show (poop_check r st).milestones.Nodup;
                   rw [(poop_check_frame r st).2.2.2.2]; exact hd⟩
  | checkHealth r1 r2 r3 =>
    exact ⟨[],
      by rw [List.append_nil]; exact (check_health_frame r1 r2 r3 st).2.2.2.2,
      fun hd => by show (check_health r1 r2 r3 st).milestones.Nodup;
                   rw [(check_health_frame r1 r2 r3 st).2.2.2.2]; exact hd⟩
  | decay e =>
    exact ⟨[], by rw [List.append_nil]; exact (calculate_decay_frame e st).2.2.2.2,
      fun hd => by show (calculate_decay e st).milestones.Nodup;
                   rw [(calculate_decay_frame e st).2.2.2.2]; exact hd⟩

theorem run_milestones (ops : List Op) :
    ∀ st : PetState, st.milestones.Nodup →
      (run ops st).milestones.Nodup ∧
      ∃ t, (run ops st).milestones = st.milestones ++ t := by
  induction ops with
  | nil => exact fun st hd => ⟨hd, ⟨[], (List.append_nil _).symm⟩⟩
  | cons o ops ih =>
    intro st hd
    rw [run_cons]
    obtain ⟨t1, h1, hnd⟩ := applyOp_milestones_step o st
    obtain ⟨hnd2, t2, h2⟩ := ih (applyOp o st) (hnd hd)
    exact ⟨hnd2, ⟨t1 ++ t2, by rw [h2, h1, List.append_assoc]⟩⟩

/-- C8 (counterexample): startup reconstruction modifies `age_hours`: a
stored record with `age_hours = 10` comes out of `GameData.load` with
`age_hours = 0` (the code unconditionally resets it), so the age counter
is not left untouched by load as the claim states. -/
theorem load_resets_age_hours :
    staleRecord "age_hours" = some (.jint 10) ∧
    staleRecord "lifetime_hours" = some (.jint 7) ∧
    GameData.load (some staleRecord) "t" "age_hours" = some (.jint 0) ∧
    GameData.load (some staleRecord) "t" "lifetime_hours" = some (.jint 7) := by
  decide

/-- C8 (amended): within a running session `age_hours` and `lifetime_hours`
are changed only by `age_tick`, which increments each by exactly 1, so both
are monotonically non-decreasing; on load, a stored `lifetime_hours` is
preserved, but `age_hours` is always reset to 0 (a per-session counter),
so `age_hours` does not survive startup reconstruction. -/
theorem age_counters_session_monotone :
    ∀ (op : Op) (st : PetState) (rec : Record) (now : String) (v : JValue),
      ((applyOp Op.ageTick st).age_hours = st.age_hours + 1 ∧
        (applyOp Op.ageTick st).lifetime_hours = st.lifetime_hours + 1) ∧
      (op ≠ Op.ageTick → (applyOp op st).age_hours = st.age_hours ∧
        (applyOp op st).lifetime_hours = st.lifetime_hours) ∧
      (st.age_hours ≤ (applyOp op st).age_hours ∧
        st.lifetime_hours ≤ (applyOp op st).lifetime_hours) ∧
      GameData.load (some rec) now "age_hours" = some (.jint 0) ∧
      (rec "lifetime_hours" = some v →
        GameData.load (some rec) now "lifetime_hours" = some v) := by
  intro op st rec now v
  have hunch : op ≠ Op.ageTick →
      (applyOp op st).age_hours = st.age_hours ∧
      (applyOp op st).lifetime_hours = st.lifetime_hours := by
    intro hop
    cases op with
    | ageTick => exact absurd rfl hop
    | feed => exact ⟨(action_feed_frame st).2.1, (action_feed_frame st).2.2.1⟩
    | clean =>
      exact ⟨(action_clean_frame st).2.2.1, (action_clean_frame st).2.2.2.1⟩
    | hungerTick =>
      exact ⟨(hunger_tick_frame st).2.1, (hunger_tick_frame st).2.2.1⟩
    | poopCheck r =>
      exact ⟨(poop_check_frame r st).2.2.1, (poop_check_frame r st).2.2.2.1⟩
    | checkHealth r1 r2 r3 =>
      exact ⟨(check_health_frame r1 r2 r3 st).2.1,
             (check_health_frame r1 r2 r3 st).2.2.1⟩
    | decay e =>
      exact ⟨(calculate_decay_frame e st).2.1,
             (calculate_decay_frame e st).2.2.1⟩
  refine ⟨⟨(age_tick_counters st).1, (age_tick_counters st).2.1⟩,
          hunch, ?_, ?_, ?_⟩
  · by_cases hop : op = Op.ageTick
    · subst hop
      simp only [applyOp]
      constructor
      · rw [(age_tick_counters st).1]
        omega
      · rw [(age_tick_counters st).2.1]
        omega
    · obtain ⟨e1, e2⟩ := hunch hop
      rw [e1, e2]
      exact ⟨le_refl _, le_refl _⟩
  · rw [load_some_apply, if_pos rfl]
  · intro hv
    rw [load_some_apply, if_neg (by decide), if_pos (by decide), hv]

/-- C8 witness. -/
theorem age_counters_session_monotone_witness :
    ((applyOp Op.ageTick initialState).age_hours =
        initialState.age_hours + 1 ∧
      (applyOp Op.ageTick initialState).lifetime_hours =
        initialState.lifetime_hours + 1) ∧
    ((applyOp Op.feed initialState).age_hours = initialState.age_hours ∧
      (applyOp Op.feed initialState).lifetime_hours =
        initialState.lifetime_hours) ∧
    GameData.load (some staleRecord) "t" "lifetime_hours" =
      some (.jint 7) :=
  ⟨(age_counters_session_monotone Op.feed initialState staleRecord "t"
      (.jint 7)).1,
   (age_counters_session_monotone Op.feed initialState staleRecord "t"
      (.jint 7)).2.1 (by decide),
   (age_counters_session_monotone Op.feed initialState staleRecord "t"
      (.jint 7)).2.2.2.2 rfl⟩

/-- C9: across any sequence of session operations (age ticks, actions,
ticks, checks, decay), the milestones list stays duplicate-free and only
grows by appending (so an identifier present once is present in every
later state and appears at most once); and a save/load round trip
preserves the milestones list exactly (save copies the session record,
load keeps the stored `milestones` key). -/
theorem milestones_unique_append_only :
    ∀ (ops : List Op) (st : PetState) (rec : Record) (now now2 : String)
      (r2 : Record),
      st.milestones.Nodup →
      ((run ops st).milestones.Nodup ∧
        ∃ t, (run ops st).milestones = st.milestones ++ t) ∧
      (rec "milestones" = some (encodeMilestones st.milestones) →
        save_game st rec now true = Except.ok r2 →
        GameData.load (some r2) now2 "milestones" =
          some (encodeMilestones st.milestones)) := by
  intro ops st rec now now2 r2 hd
  refine ⟨run_milestones ops st hd, ?_⟩
  intro hrec hok
  have hr2 : dset (save_game_record st rec) "last_save" (.jstr now) = r2 := by
    simpa [save_game, GameData.save] using hok
  rw [← hr2, load_some_apply, if_neg (by decide), if_pos (by decide)]
  have hms : dset (save_game_record st rec) "last_save" (JValue.jstr now)
      "milestones" = rec "milestones" := rfl
  rw [hms, hrec]

/-- C9 witness. -/
theorem milestones_unique_append_only_witness :
    initialState.milestones.Nodup ∧
    ((run [Op.ageTick] initialState).milestones.Nodup ∧
      ∃ t, (run [Op.ageTick] initialState).milestones =
        initialState.milestones ++ t) ∧
    GameData.load (some savedRecordW) "t2" "milestones" =
      some (encodeMilestones initialState.milestones) :=
  ⟨by decide,
   (milestones_unique_append_only [Op.ageTick] initialState (defaults "t0")
      "t1" "t2" savedRecordW (by decide)).1,
   (milestones_unique_append_only [Op.ageTick] initialState (defaults "t0")
      "t1" "t2" savedRecordW (by decide)).2 rfl rfl⟩

/-- C10: every session operation keeps `poops` within [0, 3]; `poop_check`
increments `poops` exactly when hunger ≥ 3, fewer than 3 poops are present
and the random draw succeeds; `action_clean` resets `poops` to 0 when some
are present and is a complete no-op otherwise; and no other operation
(feed, hunger tick, age tick, health check, offline catch-up) changes
`poops`. -/
theorem poops_bounded_and_guarded :
    ∀ (op : Op) (st : PetState) (r r1 r2 r3 : Bool) (e : Option ℤ),
      (0 ≤ st.poops → st.poops ≤ 3 →
        0 ≤ (applyOp op st).poops ∧ (applyOp op st).poops ≤ 3) ∧
      ((poop_check r st).poops =
        if 3 ≤ st.hunger ∧ st.poops < 3 ∧ r = true then st.poops + 1
        else st.poops) ∧
      (0 < st.poops → (action_clean st).poops = 0) ∧
      (¬ 0 < st.poops → action_clean st = st) ∧
      (action_feed st).poops = st.poops ∧
      (hunger_tick st).poops = st.poops ∧
      (age_tick st).poops = st.poops ∧
      (check_health r1 r2 r3 st).poops = st.poops ∧
      (calculate_decay e st).poops = st.poops := by
  intro op st r r1 r2 r3 e
  have hpc : ∀ r0 : Bool, (poop_check r0 st).poops =
      if 3 ≤ st.hunger ∧ st.poops < 3 ∧ r0 = true then st.poops + 1
      else st.poops := by
    intro r0
    unfold poop_check
    split_ifs <;> rfl
  refine ⟨?_, hpc r, ?_, ?_, (action_feed_frame st).2.2.2.1,
          (hunger_tick_frame st).2.2.2.1, (age_tick_counters st).2.2.2.2,
          (check_health_frame r1 r2 r3 st).2.2.2.1,
          (calculate_decay_frame e st).2.2.2.1⟩
  · intro h0 h3
    cases op with
    | feed =>
      simp only [applyOp]
      rw [(action_feed_frame st).2.2.2.1]
      omega
    | clean =>
      simp only [applyOp]
      unfold action_clean
      split_ifs
      · exact ⟨le_refl 0, by simp only []; omega⟩
      · exact ⟨h0, h3⟩
    | hungerTick =>
      simp only [applyOp]
      rw [(hunger_tick_frame st).2.2.2.1]
      omega
    | ageTick =>
      simp only [applyOp]
      rw [(age_tick_counters st).2.2.2.2]
      omega
    | poopCheck r0 =>
      simp only [applyOp]
      rw [hpc r0]
      split_ifs with hg
      · omega
      · omega
    | checkHealth s1 s2 s3 =>
      simp only [applyOp]
      rw [(check_health_frame s1 s2 s3 st).2.2.2.1]
      omega
    | decay e0 =>
      simp only [applyOp]
      rw [(calculate_decay_frame e0 st).2.2.2.1]
      omega
  · intro hp
    unfold action_clean
    rw [if_pos hp]
  · intro hp
    unfold action_clean
    rw [if_neg hp]

/-- C10 witness. -/
theorem poops_bounded_and_guarded_witness :
    0 ≤ initialState.poops ∧ initialState.poops ≤ 3 ∧
    (0 ≤ (applyOp (Op.poopCheck true) initialState).poops ∧
      (applyOp (Op.poopCheck true) initialState).poops ≤ 3) ∧
    ¬ 0 < initialState.poops ∧ action_clean initialState = initialState :=
  ⟨by decide, by decide,
   (poops_bounded_and_guarded (Op.poopCheck true) initialState true true
      true true none).1 (by decide) (by decide),
   by decide,
   (poops_bounded_and_guarded (Op.poopCheck true) initialState true true
      true true none).2.2.2.1 (by decide)⟩
